import Mathlib

/-!
Verification of the rate-limiting and connection-retry core of the
delaphone-data-frontend repository.

The rate limiter (api/core/redis_config.py) is embedded as pure state
transformers over `LedgerState`, the state of one (identifier, axis)
ledger in the Redis store: the "attempts" counter key (an optional
natural with an optional TTL) and the "log" list key (a list of attempt
records with an optional TTL).  Redis semantics are modelled faithfully:
a missing counter key reads as 0, INCR creates a missing key with no
expiry and preserves the expiry of an existing key, TTL reads return -2
for a missing key and -1 for a key without expiry.

The connection layer (database.py) is embedded with the fallible
connection environment abstracted as a function from attempt index to
an optional handle, and the retried operation as a function from attempt
index to an `Except` result.
-/

/-! ## Configuration constants (redis_config.py lines 27-38) -/

def MAX_ATTEMPTS : Nat := 5

def LOCKOUT_TIME : Nat := 300

def ATTEMPT_EXPIRY : Nat := 3600

/-- Lookup `PROGRESSIVE_DELAYS.get(n, PROGRESSIVE_DELAYS[MAX_ATTEMPTS])`:
the dict is {1:0, 2:2, 3:5, 4:10, 5:30} and any other key falls back to
the value at MAX_ATTEMPTS, which is 30. -/
def progressive_delay (n : Nat) : Nat :=
  match n with
  | 1 => 0
  | 2 => 2
  | 3 => 5
  | 4 => 10
  | 5 => 30
  | _ => 30

/-! ## Request model

The embedding keeps the fields of the FastAPI request that the rate
limiter reads: the X-Forwarded-For header, the transport-level peer
address (`request.client.host`, absent when `request.client` is None),
the user-agent header, and an opaque timestamp. -/

structure Request where
  xff : Option String
  clientHost : Option String
  userAgent : Option String
  timestamp : Nat
deriving DecidableEq

/-- Key derivation (redis_config.py `RateLimiter.get_key`). -/
def get_key (identifier key_type : String) (by_ip : Bool) : String :=
  (if by_ip then "ipratelimit" else "ratelimit") ++ ":" ++ key_type ++ ":" ++ identifier

/-- Embedding of `RateLimiter.get_client_ip` (redis_config.py lines 84-109).
The call to Python's `ipaddress.ip_address` (an external library) is
abstracted as the validity test `valid`; the try/except around it is the
fall-through to `request.client.host`.  Note `if forwarded_for:` is
false both for a missing header and for an empty-string header. -/
def get_client_ip (valid : String → Bool) (req : Request) : String :=
  match req.xff with
  | some forwarded_for =>
    if forwarded_for ≠ "" then
      let ip := ((forwarded_for.splitOn ",").headD "").trim
      if valid ip then ip
      else req.clientHost.getD "unknown"
    else req.clientHost.getD "unknown"
  | none => req.clientHost.getD "unknown"

/-! ## Ledger state: one (identifier, axis) pair of Redis keys -/

/-- One serialized attempt record, as written to the log key.  The
`rate_limited` field is absent (false) on records written by
`record_attempt` and present-and-true on the synthetic records written
by `check_rate_limit`'s pre-check increment. -/
structure AttemptData where
  timestamp : Nat
  ip : String
  user_agent : String
  success : Bool
  attempt_number : Nat
  rate_limited : Bool
  username : Option String
  identifier : Option String
deriving DecidableEq

/-- State of the "attempts" counter key and the "log" list key for one
(identifier, axis).  `counter = none` means the counter key is absent;
`counterTTL = none` means the key has no expiry. -/
structure LedgerState where
  counter : Option Nat
  counterTTL : Option Nat
  log : List AttemptData
  logTTL : Option Nat
deriving DecidableEq

/-- Embedding of `RateLimiter.get_attempt_count`: GET of the counter key, missing key
or empty value reads as 0. -/
def get_attempt_count (s : LedgerState) : Nat :=
  s.counter.getD 0

/-- Redis `TTL` of the counter key: -2 when the key is absent, -1 when
it has no expiry, else the remaining seconds. -/
def counter_ttl_read (s : LedgerState) : Int :=
  match s.counter with
  | none => -2
  | some _ =>
    match s.counterTTL with
    | none => -1
    | some t => (t : Int)

/-- Redis `TTL` of the counter key as observed right after an `INCR`:
INCR creates a missing key with no expiry (so the read gives -1, never
-2) and preserves the expiry of an existing key. -/
def counter_ttl_after_incr (s : LedgerState) : Int :=
  match s.counter with
  | none => -1
  | some _ =>
    match s.counterTTL with
    | none => -1
    | some t => (t : Int)

/-- Embedding of `RateLimiter.get_time_to_reset`: `max(0, ttl)`. -/
def get_time_to_reset (s : LedgerState) : Nat :=
  (max (0 : Int) (counter_ttl_read s)).toNat

/-! ## record_attempt (redis_config.py lines 143-235) -/

/-- The attempt record built by `record_attempt`.  Python adds a
`username` field only for IP-axis records with a username supplied, and
an `identifier` field only for username-axis records; it never writes a
`rate_limited` field. -/
def record_data (valid : String → Bool) (identifier : String) (req : Request)
    (by_ip : Bool) (username : Option String) (success : Bool)
    (current_attempts : Nat) : AttemptData :=
  { timestamp := req.timestamp
    ip := get_client_ip valid req
    user_agent := req.userAgent.getD "unknown"
    success := success
    attempt_number := current_attempts + 1
    rate_limited := false
    username := if by_ip then username else none
    identifier := if by_ip then none else some identifier }

structure RecordResult where
  state : LedgerState
  data : AttemptData
  set_counter_expiry : Bool
deriving DecidableEq

/-- Embedding of `RateLimiter.record_attempt`: read the current count, build the
record, then pipeline INCR counter / TTL counter / RPUSH log / EXPIRE
log, and finally EXPIRE the counter key iff the pipelined TTL read (the
one taken after the INCR) was negative.  `set_counter_expiry` reports
whether that final EXPIRE on the counter key was issued. -/
def record_attempt (valid : String → Bool) (identifier : String) (req : Request)
    (success : Bool) (by_ip : Bool) (username : Option String)
    (s : LedgerState) : RecordResult :=
  let current_attempts := get_attempt_count s
  let data := record_data valid identifier req by_ip username success current_attempts
  { state :=
      { counter := some (current_attempts + 1)
        counterTTL :=
          if counter_ttl_after_incr s < 0 then some ATTEMPT_EXPIRY
          else (if s.counter.isSome then s.counterTTL else none)
        log := s.log ++ [data]
        logTTL := some ATTEMPT_EXPIRY }
    data := data
    set_counter_expiry := decide (counter_ttl_after_incr s < 0) }

/-! ## check_rate_limit (redis_config.py lines 237-369) -/

/-- The rate_limit_info dict returned/attached by `check_rate_limit`,
computed after the possible pre-check increment. -/
structure RateLimitInfo where
  identifier : String
  identifier_type : String
  current_attempts : Nat
  max_attempts : Nat
  attempts_remaining : Nat
  expiry_seconds : Nat
deriving DecidableEq

/-- The two HTTP 429 payload shapes raised by `check_rate_limit`. -/
inductive CheckError where
  | locked (lockout_time : Nat) (info : RateLimitInfo)
  | delayed (delay : Nat) (attempts_remaining : Nat) (info : RateLimitInfo)
deriving DecidableEq

def CheckError.status : CheckError → String
  | .locked _ _ => "locked"
  | .delayed _ _ _ => "delayed"

def CheckError.status_code : CheckError → Nat
  | _ => 429

/-- The synthetic record appended by `check_rate_limit`'s pre-check
increment: success False, attempt_number = pre-increment count + 1,
rate_limited True. -/
def synthetic_record (valid : String → Bool) (identifier : String) (req : Request)
    (by_ip : Bool) (username : Option String) (current_attempts : Nat) : AttemptData :=
  { timestamp := req.timestamp
    ip := get_client_ip valid req
    user_agent := req.userAgent.getD "unknown"
    success := false
    attempt_number := current_attempts + 1
    rate_limited := true
    username := if by_ip then username else none
    identifier := if by_ip then none else some identifier }

/-- Lines 259-299 of redis_config.py: if the stored count is positive,
INCR the counter (no EXPIRE on it), RPUSH the synthetic record and
EXPIRE the log key; otherwise leave the store untouched. -/
def pre_increment (valid : String → Bool) (identifier : String) (req : Request)
    (by_ip : Bool) (username : Option String) (s : LedgerState) : LedgerState :=
  let current_attempts := get_attempt_count s
  if 0 < current_attempts then
    { counter := some (current_attempts + 1)
      counterTTL := if s.counter.isSome then s.counterTTL else none
      log := s.log ++ [synthetic_record valid identifier req by_ip username current_attempts]
      logTTL := some ATTEMPT_EXPIRY }
  else s

/-- The rate_limit_info dict (lines 305-312), read off the
post-increment state. -/
def rate_limit_info_of (identifier : String) (by_ip : Bool) (s1 : LedgerState) :
    RateLimitInfo :=
  { identifier := identifier
    identifier_type := if by_ip then "ip" else "username"
    current_attempts := get_attempt_count s1
    max_attempts := MAX_ATTEMPTS
    attempts_remaining := MAX_ATTEMPTS - get_attempt_count s1
    expiry_seconds := get_time_to_reset s1 }

/-- Lines 314-369 of redis_config.py: the policy decision on the
post-increment count. -/
def decide_policy (identifier : String) (by_ip : Bool) (s1 : LedgerState) :
    Except CheckError RateLimitInfo :=
  let current := get_attempt_count s1
  let info := rate_limit_info_of identifier by_ip s1
  if MAX_ATTEMPTS ≤ current then
    .error (.locked (get_time_to_reset s1) info)
  else if 1 < current then
    if 0 < progressive_delay current then
      .error (.delayed (progressive_delay current) (MAX_ATTEMPTS - current) info)
    else .ok info
  else .ok info

structure CheckResult where
  state : LedgerState
  result : Except CheckError RateLimitInfo

/-- Embedding of `RateLimiter.check_rate_limit`: pre-check increment, then policy. -/
def check_rate_limit (valid : String → Bool) (identifier : String) (req : Request)
    (by_ip : Bool) (username : Option String) (s : LedgerState) : CheckResult :=
  let s1 := pre_increment valid identifier req by_ip username s
  { state := s1, result := decide_policy identifier by_ip s1 }

/-! ## get_attempt_history and reset_attempts (lines 371-435) -/

structure HistoryResult where
  attempts : List AttemptData
  total : Nat
  successful : Nat
  failed : Nat
  time_to_reset : Nat
deriving DecidableEq

/-- Embedding of `RateLimiter.get_attempt_history`: LRANGE of the log key plus a
summary. -/
def get_attempt_history (s : LedgerState) : HistoryResult :=
  let history := s.log
  let failed_count := (history.filter (fun e => !e.success)).length
  { attempts := history
    total := history.length
    successful := history.length - failed_count
    failed := failed_count
    time_to_reset := get_time_to_reset s }

structure ResetResult where
  state : LedgerState
  success : Bool
  previous_attempts : Nat
deriving DecidableEq

/-- Embedding of `RateLimiter.reset_attempts`: read the history length, DELETE the
counter key, optionally DELETE the log key, and report the number of
historical entries. -/
def reset_attempts (reset_logs : Bool) (s : LedgerState) : ResetResult :=
  let history := get_attempt_history s
  let history_count := history.attempts.length
  { state :=
      { counter := none
        counterTTL := none
        log := if reset_logs then [] else s.log
        logTTL := if reset_logs then none else s.logTTL }
    success := true
    previous_attempts := history_count }

/-! ## Derived iteration helpers used by the claims -/

/-- The counter value the policy is evaluated on: the stored count after
the conditional pre-check increment. -/
def post_count (s : LedgerState) : Nat :=
  let c0 := get_attempt_count s
  if 0 < c0 then c0 + 1 else c0

/-- Iterate `check_rate_limit` (same request context), keeping the
state. -/
def check_iter (valid : String → Bool) (identifier : String) (req : Request)
    (by_ip : Bool) (username : Option String) : Nat → LedgerState → LedgerState
  | 0, s => s
  | n + 1, s =>
    check_iter valid identifier req by_ip username n
      (check_rate_limit valid identifier req by_ip username s).state

/-- Run a sequence of `record_attempt` calls (each with its own request
context and success flag) and count how many of them issued an EXPIRE on
the counter key. -/
def record_seq (valid : String → Bool) (identifier : String) (by_ip : Bool)
    (username : Option String) : List (Request × Bool) → LedgerState → LedgerState × Nat
  | [], s => (s, 0)
  | (req, succ) :: rest, s =>
    let r := record_attempt valid identifier req succ by_ip username s
    let t := record_seq valid identifier by_ip username rest r.state
    (t.1, t.2 + (if r.set_counter_expiry then 1 else 0))

/-- Outcome classifiers for a check result. -/
def raises_locked (r : Except CheckError RateLimitInfo) : Bool :=
  match r with
  | .error e => e.status == "locked"
  | .ok _ => false

def raises_delayed (r : Except CheckError RateLimitInfo) : Bool :=
  match r with
  | .error e => e.status == "delayed"
  | .ok _ => false

def allows (r : Except CheckError RateLimitInfo) : Bool :=
  match r with
  | .error _ => false
  | .ok _ => true

/-! ## Connection retry layer (database.py) -/

def DATABASE_NAME : String := "delaphone"

/-- The reconnect loop of `get_mongodb_client` (database.py lines
58-96): `env k` is the outcome of the k-th connection attempt (`none` =
the AsyncIOMotorClient construction-plus-ping fails).  The fuel is the
number of loop iterations still permitted by `while retries <=
max_retries`; the second component counts connection attempts made. -/
def connect_loop {H : Type} (env : Nat → Option H) : Nat → Nat → Option H × Nat
  | 0, _ => (none, 0)
  | fuel + 1, k =>
    match env k with
    | some h => (some h, 1)
    | none =>
      let r := connect_loop env fuel (k + 1)
      (r.1, r.2 + 1)

/-- Embedding of `get_mongodb_client` (database.py lines 34-96): return a cached
client that still answers a ping, otherwise run the reconnect loop with
`max_retries + 1` permitted iterations; on exhaustion it returns
`none`.  The second component counts connection attempts. -/
def get_mongodb_client {H : Type} (env : Nat → Option H) (ping_ok : Bool)
    (cached : Option H) (max_retries : Nat) : Option H × Nat :=
  match cached with
  | some c => if ping_ok then (some c, 0) else connect_loop env (max_retries + 1) 0
  | none => connect_loop env (max_retries + 1) 0

inductive DBError where
  | connectionError (msg : String)
deriving DecidableEq

/-- Embedding of `get_database` (database.py lines 99-116): reuse the cached global
client, else acquire one with `get_mongodb_client`; if that still
returns no client, raise `ConnectionError`. -/
def get_database {H : Type} (env : Nat → Option H) (ping_ok : Bool)
    (client : Option H) (max_retries : Nat) : Except DBError (H × String) :=
  match client with
  | some c => .ok (c, DATABASE_NAME)
  | none =>
    match get_mongodb_client env ping_ok none max_retries with
    | (some c, _) => .ok (c, DATABASE_NAME)
    | (none, _) => .error (.connectionError "Failed to connect to MongoDB database")

/-- Model of `str(e).lower()`: the exception message lowercased, as a character
sequence. -/
def lower_chars (s : String) : List Char :=
  s.data.map Char.toLower

/-- Python's `needle in hay` on strings: contiguous-substring test. -/
def contains_substr (hay needle : List Char) : Bool :=
  decide (needle <:+: hay)

/-- The connection-error heuristic of `with_mongodb_retry` (database.py
line 150): `"not connected" in str(e).lower() or "connection" in
str(e).lower()`. -/
def is_connection_error (msg : String) : Bool :=
  contains_substr (lower_chars msg) ("not connected").data
    || contains_substr (lower_chars msg) ("connection").data

/-- Result of a `with_mongodb_retry`-wrapped call: the final outcome
(the exception is its message string), the sequence of sleeps performed,
and the global cached client after the call. -/
structure RetryRes (A H : Type) where
  result : Except String A
  sleeps : List ℚ
  client : Option H

/-- The retry loop of `with_mongodb_retry` (database.py lines 130-152):
`op k` is the outcome of the k-th invocation of the wrapped operation.
With `r + 1` retries still allowed, a failure sleeps `cur`, multiplies
the delay by `b`, clears the cached client when the message matches the
connection heuristic, and recurses; with 0 retries left the exception is
re-raised unchanged, without sleeping and without touching the cached
client. -/
def retry_go {A H : Type} (op : Nat → Except String A) (b : ℚ) :
    Nat → Nat → ℚ → Option H → List ℚ → RetryRes A H
  | 0, k, _, cl, sleeps =>
    match op k with
    | .ok a => ⟨.ok a, sleeps.reverse, cl⟩
    | .error e => ⟨.error e, sleeps.reverse, cl⟩
  | r + 1, k, cur, cl, sleeps =>
    match op k with
    | .ok a => ⟨.ok a, sleeps.reverse, cl⟩
    | .error e =>
      retry_go op b r (k + 1) (cur * b)
        (if is_connection_error e then none else cl) (cur :: sleeps)

/-- Embedding of `with_mongodb_retry(max_retries, retry_delay, backoff_factor)`
applied to an operation, starting from cached client `cl`.  Defaults in
the source are (3, 0.5, 1.5). -/
def with_mongodb_retry {A H : Type} (op : Nat → Except String A)
    (max_retries : Nat) (retry_delay backoff_factor : ℚ)
    (cl : Option H) : RetryRes A H :=
  retry_go op backoff_factor max_retries 0 retry_delay cl []

/-! ## Helper lemmas about the rate limiter -/

theorem counter_isSome_of_pos {s : LedgerState} (h : 0 < get_attempt_count s) :
    s.counter.isSome = true := by
  unfold get_attempt_count at h
  cases hc : s.counter with
  | none => rw [hc] at h; simp [Option.getD] at h
  | some c => simp

theorem pre_increment_of_zero (valid : String → Bool) (ident : String) (req : Request)
    (by_ip : Bool) (un : Option String) (s : LedgerState)
    (h : get_attempt_count s = 0) :
    pre_increment valid ident req by_ip un s = s := by
  unfold pre_increment
  simp [h]

theorem pre_increment_of_pos (valid : String → Bool) (ident : String) (req : Request)
    (by_ip : Bool) (un : Option String) (s : LedgerState)
    (h : 0 < get_attempt_count s) :
    pre_increment valid ident req by_ip un s =
      { counter := some (get_attempt_count s + 1)
        counterTTL := s.counterTTL
        log := s.log ++ [synthetic_record valid ident req by_ip un (get_attempt_count s)]
        logTTL := some ATTEMPT_EXPIRY } := by
  unfold pre_increment
  simp [h, counter_isSome_of_pos h]

theorem count_pre_increment (valid : String → Bool) (ident : String) (req : Request)
    (by_ip : Bool) (un : Option String) (s : LedgerState) :
    get_attempt_count (pre_increment valid ident req by_ip un s) = post_count s := by
  unfold post_count
  by_cases h : 0 < get_attempt_count s
  · rw [pre_increment_of_pos valid ident req by_ip un s h, if_pos h]
    simp [get_attempt_count]
  · rw [pre_increment_of_zero valid ident req by_ip un s (by omega), if_neg h]

theorem policy_locked_iff (ident : String) (by_ip : Bool) (s1 : LedgerState) :
    raises_locked (decide_policy ident by_ip s1) = true ↔
      MAX_ATTEMPTS ≤ get_attempt_count s1 := by
  simp only [decide_policy]
  split_ifs with h1 h2 h3 <;>
    simp [raises_locked, CheckError.status, h1]

theorem policy_delayed_iff (ident : String) (by_ip : Bool) (s1 : LedgerState) :
    raises_delayed (decide_policy ident by_ip s1) = true ↔
      1 < get_attempt_count s1 ∧ get_attempt_count s1 < MAX_ATTEMPTS ∧
        0 < progressive_delay (get_attempt_count s1) := by
  simp only [decide_policy]
  split_ifs with h1 h2 h3 <;>
    simp [raises_delayed, CheckError.status] <;> omega

theorem policy_allows_iff (ident : String) (by_ip : Bool) (s1 : LedgerState) :
    allows (decide_policy ident by_ip s1) = true ↔
      ¬(MAX_ATTEMPTS ≤ get_attempt_count s1) ∧
      ¬(1 < get_attempt_count s1 ∧ get_attempt_count s1 < MAX_ATTEMPTS ∧
          0 < progressive_delay (get_attempt_count s1)) := by
  simp only [decide_policy]
  split_ifs with h1 h2 h3 <;> simp [allows] <;> omega

theorem outcome_sum (r : Except CheckError RateLimitInfo) :
    (if raises_locked r then 1 else 0) + (if raises_delayed r then 1 else 0)
      + (if allows r then 1 else 0) = 1 := by
  cases r with
  | ok a => simp [raises_locked, raises_delayed, allows]
  | error e => cases e <;> simp [raises_locked, raises_delayed, allows, CheckError.status]

/-! ## Claim theorems -/

/-- C2: every call to `check_rate_limit` has exactly one of three
outcomes, determined by the post-increment counter value `post_count s`:
it raises LOCKED iff that value is at least MAX_ATTEMPTS; it raises
DELAYED iff that value is greater than 1, less than MAX_ATTEMPTS, and
has a positive configured progressive delay; otherwise it returns
ALLOW. -/
theorem c2_check_outcome_trichotomy (valid : String → Bool) (ident : String)
    (req : Request) (by_ip : Bool) (un : Option String) (s : LedgerState) :
    (raises_locked (check_rate_limit valid ident req by_ip un s).result = true
        ↔ MAX_ATTEMPTS ≤ post_count s)
  ∧ (raises_delayed (check_rate_limit valid ident req by_ip un s).result = true
        ↔ 1 < post_count s ∧ post_count s < MAX_ATTEMPTS ∧
            0 < progressive_delay (post_count s))
  ∧ (allows (check_rate_limit valid ident req by_ip un s).result = true
        ↔ ¬(MAX_ATTEMPTS ≤ post_count s) ∧
          ¬(1 < post_count s ∧ post_count s < MAX_ATTEMPTS ∧
              0 < progressive_delay (post_count s)))
  ∧ (if raises_locked (check_rate_limit valid ident req by_ip un s).result then 1 else 0)
      + (if raises_delayed (check_rate_limit valid ident req by_ip un s).result then 1 else 0)
      + (if allows (check_rate_limit valid ident req by_ip un s).result then 1 else 0) = 1 := by
  have hc : (check_rate_limit valid ident req by_ip un s).result
      = decide_policy ident by_ip (pre_increment valid ident req by_ip un s) := rfl
  have hcount := count_pre_increment valid ident req by_ip un s
  refine ⟨?_, ?_, ?_, ?_⟩
  · rw [hc, policy_locked_iff, hcount]
  · rw [hc, policy_delayed_iff, hcount]
  · rw [hc, policy_allows_iff, hcount]
  · exact outcome_sum _

/-- C3: when the stored attempt count is 0 (including an absent counter
key), `check_rate_limit` never raises, returns ALLOW, and leaves the
ledger state — counter, TTLs and log — completely unchanged. -/
theorem c3_zero_count_allows_unchanged (valid : String → Bool) (ident : String)
    (req : Request) (by_ip : Bool) (un : Option String) (s : LedgerState)
    (h : get_attempt_count s = 0) :
    (check_rate_limit valid ident req by_ip un s).state = s
  ∧ allows (check_rate_limit valid ident req by_ip un s).result = true := by
  have hpre : pre_increment valid ident req by_ip un s = s :=
    pre_increment_of_zero valid ident req by_ip un s h
  constructor
  · show pre_increment valid ident req by_ip un s = s
    exact hpre
  · show allows (decide_policy ident by_ip (pre_increment valid ident req by_ip un s)) = true
    rw [hpre, policy_allows_iff, h]
    simp [MAX_ATTEMPTS]

def w_valid : String → Bool := fun _ => true

def w_req : Request :=
  { xff := none, clientHost := some "10.0.0.9", userAgent := some "agent", timestamp := 0 }

def w_fresh : LedgerState :=
  { counter := none, counterTTL := none, log := [], logTTL := none }

/-- Witness for C3 at the fresh (absent-key) state. -/
theorem c3_zero_count_allows_unchanged_witness :
    get_attempt_count w_fresh = 0
  ∧ ((check_rate_limit w_valid "alice" w_req false none w_fresh).state = w_fresh
      ∧ allows (check_rate_limit w_valid "alice" w_req false none w_fresh).result = true) :=
  ⟨rfl, c3_zero_count_allows_unchanged w_valid "alice" w_req false none w_fresh rfl⟩

def c1_state : LedgerState :=
  { counter := some 4, counterTTL := some 120, log := [], logTTL := some 120 }

/-- C1 counterexample: at stored count c = 4 (which satisfies
0 < c < MAX_ATTEMPTS) the progressive delay for the derived ordinal
c + 1 = 5 is 30 > 0, yet `check_rate_limit` raises LOCKED, not DELAYED,
so "raises DELAYED iff the delay for ordinal c+1 is positive, else
ALLOW" is false at this input. -/
theorem c1_counterexample :
    get_attempt_count c1_state = 4
  ∧ 0 < get_attempt_count c1_state ∧ get_attempt_count c1_state < MAX_ATTEMPTS
  ∧ 0 < progressive_delay (get_attempt_count c1_state + 1)
  ∧ raises_delayed (check_rate_limit w_valid "alice" w_req false none c1_state).result = false
  ∧ allows (check_rate_limit w_valid "alice" w_req false none c1_state).result = false
  ∧ raises_locked (check_rate_limit w_valid "alice" w_req false none c1_state).result = true := by
  refine ⟨rfl, by decide, by decide, by decide, ?_, ?_, ?_⟩ <;> decide

/-- C1 (amended): with current stored count c, 0 < c < MAX_ATTEMPTS, one
`check_rate_limit` call increments the counter by exactly 1; any raise
is an HTTP 429; when the derived ordinal c + 1 is still below
MAX_ATTEMPTS it raises DELAYED iff the progressive delay for c + 1 is
positive and returns ALLOW when that delay is 0; when c + 1 reaches
MAX_ATTEMPTS it raises LOCKED instead. -/
theorem c1_amended_increment_and_delay (valid : String → Bool) (ident : String)
    (req : Request) (by_ip : Bool) (un : Option String) (s : LedgerState)
    (h1 : 0 < get_attempt_count s) (h2 : get_attempt_count s < MAX_ATTEMPTS) :
    get_attempt_count (check_rate_limit valid ident req by_ip un s).state
      = get_attempt_count s + 1
  ∧ (∀ e, (check_rate_limit valid ident req by_ip un s).result = .error e →
        e.status_code = 429)
  ∧ (get_attempt_count s + 1 < MAX_ATTEMPTS →
      (raises_delayed (check_rate_limit valid ident req by_ip un s).result = true
          ↔ 0 < progressive_delay (get_attempt_count s + 1))
      ∧ (progressive_delay (get_attempt_count s + 1) = 0 →
          allows (check_rate_limit valid ident req by_ip un s).result = true))
  ∧ (MAX_ATTEMPTS ≤ get_attempt_count s + 1 →
      raises_locked (check_rate_limit valid ident req by_ip un s).result = true) := by
  have hpost : post_count s = get_attempt_count s + 1 := by
    unfold post_count; rw [if_pos h1]
  have hstate : (check_rate_limit valid ident req by_ip un s).state
      = pre_increment valid ident req by_ip un s := rfl
  have hres : (check_rate_limit valid ident req by_ip un s).result
      = decide_policy ident by_ip (pre_increment valid ident req by_ip un s) := rfl
  have hcount := count_pre_increment valid ident req by_ip un s
  refine ⟨?_, ?_, ?_, ?_⟩
  · rw [hstate, hcount, hpost]
  · intro e _
    cases e <;> rfl
  · intro hlt
    constructor
    · rw [hres, policy_delayed_iff, hcount, hpost]
      constructor
      · rintro ⟨_, _, hd⟩; exact hd
      · intro hd; exact ⟨by omega, hlt, hd⟩
    · intro hdelay
      rw [hres, policy_allows_iff, hcount, hpost]
      refine ⟨by omega, ?_⟩
      rintro ⟨_, _, hpos⟩
      rw [hdelay] at hpos
      omega
  · intro hge
    rw [hres, policy_locked_iff, hcount, hpost]
    exact hge

def c1w_state : LedgerState :=
  { counter := some 1, counterTTL := some 3600, log := [], logTTL := some 3600 }

/-- Witness for the amended C1 at stored count 1. -/
theorem c1_amended_increment_and_delay_witness :
    (0 < get_attempt_count c1w_state ∧ get_attempt_count c1w_state < MAX_ATTEMPTS)
  ∧ (get_attempt_count (check_rate_limit w_valid "alice" w_req false none c1w_state).state
      = get_attempt_count c1w_state + 1
    ∧ (∀ e, (check_rate_limit w_valid "alice" w_req false none c1w_state).result = .error e →
          e.status_code = 429)
    ∧ (get_attempt_count c1w_state + 1 < MAX_ATTEMPTS →
        (raises_delayed (check_rate_limit w_valid "alice" w_req false none c1w_state).result = true
            ↔ 0 < progressive_delay (get_attempt_count c1w_state + 1))
        ∧ (progressive_delay (get_attempt_count c1w_state + 1) = 0 →
            allows (check_rate_limit w_valid "alice" w_req false none c1w_state).result = true))
    ∧ (MAX_ATTEMPTS ≤ get_attempt_count c1w_state + 1 →
        raises_locked (check_rate_limit w_valid "alice" w_req false none c1w_state).result = true)) :=
  ⟨⟨by decide, by decide⟩,
    c1_amended_increment_and_delay w_valid "alice" w_req false none c1w_state
      (by decide) (by decide)⟩

/-- C4: when `check_rate_limit` observes a pre-existing count c > 0 it
increments the counter and appends exactly one synthetic log record with
rate_limited = true, success = false and attempt_number = c + 1, while
records produced by `record_attempt` never carry the rate_limited
flag. -/
theorem c4_synthetic_record_flags (valid : String → Bool) (ident : String)
    (req : Request) (by_ip : Bool) (un : Option String) (s : LedgerState)
    (h : 0 < get_attempt_count s) :
    (check_rate_limit valid ident req by_ip un s).state.log
      = s.log ++ [synthetic_record valid ident req by_ip un (get_attempt_count s)]
  ∧ (synthetic_record valid ident req by_ip un (get_attempt_count s)).rate_limited = true
  ∧ (synthetic_record valid ident req by_ip un (get_attempt_count s)).success = false
  ∧ (synthetic_record valid ident req by_ip un (get_attempt_count s)).attempt_number
      = get_attempt_count s + 1
  ∧ get_attempt_count (check_rate_limit valid ident req by_ip un s).state
      = get_attempt_count s + 1
  ∧ (∀ (valid2 : String → Bool) (ident2 : String) (req2 : Request)
        (succ2 by_ip2 : Bool) (un2 : Option String) (s2 : LedgerState),
      (record_attempt valid2 ident2 req2 succ2 by_ip2 un2 s2).data.rate_limited = false) := by
  have hstate : (check_rate_limit valid ident req by_ip un s).state
      = pre_increment valid ident req by_ip un s := rfl
  have hpre := pre_increment_of_pos valid ident req by_ip un s h
  refine ⟨?_, rfl, rfl, rfl, ?_, ?_⟩
  · rw [hstate, hpre]
  · rw [hstate, hpre]
    simp [get_attempt_count]
  · intro valid2 ident2 req2 succ2 by_ip2 un2 s2
    rfl

def c4w_state : LedgerState :=
  { counter := some 2, counterTTL := some 900, log := [], logTTL := some 900 }

/-- Witness for C4 at stored count 2. -/
theorem c4_synthetic_record_flags_witness :
    0 < get_attempt_count c4w_state
  ∧ ((check_rate_limit w_valid "bob" w_req false none c4w_state).state.log
      = c4w_state.log ++ [synthetic_record w_valid "bob" w_req false none (get_attempt_count c4w_state)]
    ∧ (synthetic_record w_valid "bob" w_req false none (get_attempt_count c4w_state)).rate_limited = true
    ∧ (synthetic_record w_valid "bob" w_req false none (get_attempt_count c4w_state)).success = false
    ∧ (synthetic_record w_valid "bob" w_req false none (get_attempt_count c4w_state)).attempt_number
        = get_attempt_count c4w_state + 1
    ∧ get_attempt_count (check_rate_limit w_valid "bob" w_req false none c4w_state).state
        = get_attempt_count c4w_state + 1
    ∧ (∀ (valid2 : String → Bool) (ident2 : String) (req2 : Request)
          (succ2 by_ip2 : Bool) (un2 : Option String) (s2 : LedgerState),
        (record_attempt valid2 ident2 req2 succ2 by_ip2 un2 s2).data.rate_limited = false)) :=
  ⟨by decide, c4_synthetic_record_flags w_valid "bob" w_req false none c4w_state (by decide)⟩

/-- C6: `reset_attempts` deletes the counter key, optionally deletes the
log key, and reports the number of historical log entries; an
immediately following `check_rate_limit` behaves exactly as on count 0:
it returns ALLOW without raising and without changing the state. -/
theorem c6_reset_then_check_allows (valid : String → Bool) (ident : String)
    (req : Request) (by_ip : Bool) (un : Option String) (reset_logs : Bool)
    (s : LedgerState) :
    (reset_attempts reset_logs s).previous_attempts = s.log.length
  ∧ (reset_attempts reset_logs s).state.counter = none
  ∧ (reset_attempts reset_logs s).state.log = (if reset_logs then [] else s.log)
  ∧ (check_rate_limit valid ident req by_ip un (reset_attempts reset_logs s).state).state
      = (reset_attempts reset_logs s).state
  ∧ allows (check_rate_limit valid ident req by_ip un
        (reset_attempts reset_logs s).state).result = true := by
  have hzero : get_attempt_count (reset_attempts reset_logs s).state = 0 := rfl
  have hpre : pre_increment valid ident req by_ip un (reset_attempts reset_logs s).state
      = (reset_attempts reset_logs s).state :=
    pre_increment_of_zero valid ident req by_ip un _ hzero
  refine ⟨rfl, rfl, rfl, hpre, ?_⟩
  show allows (decide_policy ident by_ip
      (pre_increment valid ident req by_ip un (reset_attempts reset_logs s).state)) = true
  rw [hpre, policy_allows_iff, hzero]
  simp [MAX_ATTEMPTS]

/-- Invariant "the counter key exists and carries an expiry". -/
def ttl_installed (s : LedgerState) : Prop :=
  s.counter.isSome = true ∧ s.counterTTL.isSome = true

theorem record_attempt_fresh (valid : String → Bool) (ident : String) (req : Request)
    (succ by_ip : Bool) (un : Option String) (s : LedgerState)
    (h : s.counter = none) :
    (record_attempt valid ident req succ by_ip un s).set_counter_expiry = true
  ∧ (record_attempt valid ident req succ by_ip un s).state.counterTTL = some ATTEMPT_EXPIRY
  ∧ ttl_installed (record_attempt valid ident req succ by_ip un s).state := by
  have hincr : counter_ttl_after_incr s = -1 := by
    unfold counter_ttl_after_incr; rw [h]
  refine ⟨?_, ?_, ?_, ?_⟩
  · simp [record_attempt, hincr]
  · simp [record_attempt, hincr]
  · simp [record_attempt]
  · simp [record_attempt, hincr]

theorem record_attempt_installed (valid : String → Bool) (ident : String) (req : Request)
    (succ by_ip : Bool) (un : Option String) (s : LedgerState)
    (h : ttl_installed s) :
    (record_attempt valid ident req succ by_ip un s).set_counter_expiry = false
  ∧ ttl_installed (record_attempt valid ident req succ by_ip un s).state
  ∧ (record_attempt valid ident req succ by_ip un s).state.counterTTL = s.counterTTL := by
  obtain ⟨hcnt, httl⟩ := h
  obtain ⟨t, ht⟩ := Option.isSome_iff_exists.mp httl
  have hincr : counter_ttl_after_incr s = (t : Int) := by
    unfold counter_ttl_after_incr
    obtain ⟨c, hc⟩ := Option.isSome_iff_exists.mp hcnt
    rw [hc, ht]
  have hneg : ¬(counter_ttl_after_incr s < 0) := by
    rw [hincr]; omega
  refine ⟨?_, ⟨?_, ?_⟩, ?_⟩
  · simp [record_attempt, hneg]
  · simp [record_attempt]
  · simp [record_attempt, hneg, hcnt, httl]
  · simp [record_attempt, hneg, hcnt]

theorem record_seq_no_expire (valid : String → Bool) (ident : String) (by_ip : Bool)
    (un : Option String) (inputs : List (Request × Bool)) :
    ∀ s : LedgerState, ttl_installed s →
      (record_seq valid ident by_ip un inputs s).2 = 0 := by
  induction inputs with
  | nil => intro s _; rfl
  | cons x rest ih =>
    intro s hs
    obtain ⟨req, succ⟩ := x
    have hstep := record_attempt_installed valid ident req succ by_ip un s hs
    show (record_seq valid ident by_ip un rest
          (record_attempt valid ident req succ by_ip un s).state).2
        + (if (record_attempt valid ident req succ by_ip un s).set_counter_expiry
            then 1 else 0) = 0
    rw [hstep.1, ih _ hstep.2.1]
    simp

/-- C5: starting from an absent counter key, a sequence of
`record_attempt` calls within one TTL window issues exactly one EXPIRE
on the counter key (on the first call); an EXPIRE on the counter key is
issued precisely when the post-increment TTL read returns a negative
sentinel; and the log key's expiry is refreshed to ATTEMPT_EXPIRY on
every write, both by `record_attempt` and by `check_rate_limit`'s
synthetic append. -/
theorem c5_counter_ttl_set_once (valid : String → Bool) (ident : String) (by_ip : Bool)
    (un : Option String) (req0 : Request) (succ0 : Bool)
    (inputs : List (Request × Bool)) (s : LedgerState)
    (h : s.counter = none) :
    (record_seq valid ident by_ip un ((req0, succ0) :: inputs) s).2 = 1
  ∧ (∀ (req : Request) (succ : Bool) (s2 : LedgerState),
      (record_attempt valid ident req succ by_ip un s2).set_counter_expiry = true
        ↔ counter_ttl_after_incr s2 < 0)
  ∧ (∀ (req : Request) (succ : Bool) (s2 : LedgerState),
      (record_attempt valid ident req succ by_ip un s2).state.logTTL
        = some ATTEMPT_EXPIRY)
  ∧ (∀ (req : Request) (s2 : LedgerState), 0 < get_attempt_count s2 →
      (check_rate_limit valid ident req by_ip un s2).state.logTTL
        = some ATTEMPT_EXPIRY) := by
  refine ⟨?_, ?_, ?_, ?_⟩
  · have hfirst := record_attempt_fresh valid ident req0 succ0 by_ip un s h
    show (record_seq valid ident by_ip un inputs
          (record_attempt valid ident req0 succ0 by_ip un s).state).2
        + (if (record_attempt valid ident req0 succ0 by_ip un s).set_counter_expiry
            then 1 else 0) = 1
    rw [hfirst.1, record_seq_no_expire valid ident by_ip un inputs _ hfirst.2.2]
    simp
  · intro req succ s2
    simp [record_attempt]
  · intro req succ s2
    rfl
  · intro req s2 h2
    show (pre_increment valid ident req by_ip un s2).logTTL = some ATTEMPT_EXPIRY
    rw [pre_increment_of_pos valid ident req by_ip un s2 h2]

/-- Witness for C5: one fresh `record_attempt` followed by another in
the same window. -/
theorem c5_counter_ttl_set_once_witness :
    w_fresh.counter = none
  ∧ ((record_seq w_valid "alice" false none ((w_req, false) :: [(w_req, false)]) w_fresh).2 = 1
    ∧ (∀ (req : Request) (succ : Bool) (s2 : LedgerState),
        (record_attempt w_valid "alice" req succ false none s2).set_counter_expiry = true
          ↔ counter_ttl_after_incr s2 < 0)
    ∧ (∀ (req : Request) (succ : Bool) (s2 : LedgerState),
        (record_attempt w_valid "alice" req succ false none s2).state.logTTL
          = some ATTEMPT_EXPIRY)
    ∧ (∀ (req : Request) (s2 : LedgerState), 0 < get_attempt_count s2 →
        (check_rate_limit w_valid "alice" req false none s2).state.logTTL
          = some ATTEMPT_EXPIRY)) :=
  ⟨rfl, c5_counter_ttl_set_once w_valid "alice" false none w_req false
      [(w_req, false)] w_fresh rfl⟩

theorem pre_increment_counterTTL (valid : String → Bool) (ident : String) (req : Request)
    (by_ip : Bool) (un : Option String) (s : LedgerState) :
    (pre_increment valid ident req by_ip un s).counterTTL = s.counterTTL := by
  by_cases h : 0 < get_attempt_count s
  · rw [pre_increment_of_pos valid ident req by_ip un s h]
  · rw [pre_increment_of_zero valid ident req by_ip un s (by omega)]

theorem pre_increment_counter_isSome (valid : String → Bool) (ident : String)
    (req : Request) (by_ip : Bool) (un : Option String) (s : LedgerState)
    (h : s.counter.isSome = true) :
    (pre_increment valid ident req by_ip un s).counter.isSome = true := by
  by_cases hc : 0 < get_attempt_count s
  · rw [pre_increment_of_pos valid ident req by_ip un s hc]
    rfl
  · rw [pre_increment_of_zero valid ident req by_ip un s (by omega)]
    exact h

/-- C10 helper: iterated checks keep an expiry-less counter
expiry-less. -/
theorem check_iter_ttl_none (valid : String → Bool) (ident : String) (req : Request)
    (by_ip : Bool) (un : Option String) (n : Nat) :
    ∀ s : LedgerState, s.counterTTL = none →
      (check_iter valid ident req by_ip un n s).counterTTL = none := by
  induction n with
  | zero => intro s h; exact h
  | succ n ih =>
    intro s h
    show (check_iter valid ident req by_ip un n
        (check_rate_limit valid ident req by_ip un s).state).counterTTL = none
    apply ih
    show (pre_increment valid ident req by_ip un s).counterTTL = none
    rw [pre_increment_counterTTL valid ident req by_ip un s]
    exact h

/-- C10 helper: iterated checks keep an existing counter key existing. -/
theorem check_iter_counter_some (valid : String → Bool) (ident : String) (req : Request)
    (by_ip : Bool) (un : Option String) (n : Nat) :
    ∀ s : LedgerState, s.counter.isSome = true →
      (check_iter valid ident req by_ip un n s).counter.isSome = true := by
  induction n with
  | zero => intro s h; exact h
  | succ n ih =>
    intro s h
    show (check_iter valid ident req by_ip un n
        (check_rate_limit valid ident req by_ip un s).state).counter.isSome = true
    apply ih
    exact pre_increment_counter_isSome valid ident req by_ip un s h

/-- C10: the pre-check increment inside `check_rate_limit` never sets or
refreshes the counter key's TTL, so a counter key that exists without an
expiry still has no expiry — and still exists — after any number of
`check_rate_limit` calls; a single call preserves the counter TTL of
every state. -/
theorem c10_check_never_sets_counter_ttl (valid : String → Bool) (ident : String)
    (req : Request) (by_ip : Bool) (un : Option String) (n : Nat) (s : LedgerState)
    (h : s.counterTTL = none) :
    (check_iter valid ident req by_ip un n s).counterTTL = none
  ∧ (s.counter.isSome = true →
      (check_iter valid ident req by_ip un n s).counter.isSome = true)
  ∧ (∀ s2 : LedgerState,
      (check_rate_limit valid ident req by_ip un s2).state.counterTTL = s2.counterTTL) :=
  ⟨check_iter_ttl_none valid ident req by_ip un n s h,
   fun hc => check_iter_counter_some valid ident req by_ip un n s hc,
   fun s2 => pre_increment_counterTTL valid ident req by_ip un s2⟩

def c10w_state : LedgerState :=
  { counter := some 2, counterTTL := none, log := [], logTTL := none }

/-- Witness for C10: three checks on a counter key with no expiry. -/
theorem c10_check_never_sets_counter_ttl_witness :
    c10w_state.counterTTL = none
  ∧ ((check_iter w_valid "alice" w_req false none 3 c10w_state).counterTTL = none
    ∧ (c10w_state.counter.isSome = true →
        (check_iter w_valid "alice" w_req false none 3 c10w_state).counter.isSome = true)
    ∧ (∀ s2 : LedgerState,
        (check_rate_limit w_valid "alice" w_req false none s2).state.counterTTL
          = s2.counterTTL)) :=
  ⟨rfl, c10_check_never_sets_counter_ttl w_valid "alice" w_req false none 3 c10w_state rfl⟩

/-- The first comma-separated value of a forwarded-for header, stripped
of surrounding whitespace (`forwarded_for.split(",")[0].strip()`). -/
def first_forwarded (f : String) : String :=
  ((f.splitOn ",").headD "").trim

/-- C7: `get_client_ip` returns the first comma-separated value of the
forwarded-for header when the header is present, non-empty and that
value passes IP validation; otherwise the transport-level peer address;
otherwise "unknown" — and, being a total function on every request and
every validator outcome, it never raises: its value is always either the
extracted header value or the peer-address fallback. -/
theorem c7_client_ip_extraction (valid : String → Bool) (req : Request) :
    (∀ f, req.xff = some f → f ≠ "" → valid (first_forwarded f) = true →
        get_client_ip valid req = first_forwarded f)
  ∧ (∀ f, req.xff = some f → f ≠ "" → valid (first_forwarded f) = false →
        get_client_ip valid req = req.clientHost.getD "unknown")
  ∧ (req.xff = none → get_client_ip valid req = req.clientHost.getD "unknown")
  ∧ (req.xff = some "" → get_client_ip valid req = req.clientHost.getD "unknown")
  ∧ (req.clientHost = none → req.xff = none → get_client_ip valid req = "unknown")
  ∧ ((∃ f, req.xff = some f ∧ get_client_ip valid req = first_forwarded f)
      ∨ get_client_ip valid req = req.clientHost.getD "unknown") := by
  refine ⟨?_, ?_, ?_, ?_, ?_, ?_⟩
  · intro f hf hne hv
    simp [get_client_ip, hf, hne, first_forwarded] at *
    simp [hv]
  · intro f hf hne hv
    simp [get_client_ip, hf, hne, first_forwarded] at *
    simp [hv]
  · intro hf
    simp [get_client_ip, hf]
  · intro hf
    simp [get_client_ip, hf]
  · intro hch hf
    simp [get_client_ip, hf, hch]
  · cases hf : req.xff with
    | none => right; simp [get_client_ip, hf]
    | some f =>
      by_cases hne : f = ""
      · right; simp [get_client_ip, hf, hne]
      · by_cases hv : valid (first_forwarded f) = true
        · left
          exact ⟨f, rfl, by simp [get_client_ip, hf, hne, first_forwarded] at *; simp [hv]⟩
        · right
          simp [get_client_ip, hf, hne, first_forwarded] at *
          simp [hv]

/-- Witness for C7: absent forwarded-for header falls back to the peer
address. -/
theorem c7_client_ip_extraction_witness :
    get_client_ip w_valid w_req = w_req.clientHost.getD "unknown" :=
  (c7_client_ip_extraction w_valid w_req).2.2.1 rfl

/-! ## Connection retry layer: claims C8 and C9 -/

theorem connect_loop_all_fail {H : Type} (env : Nat → Option H)
    (hfail : ∀ k, env k = none) :
    ∀ (fuel k : Nat), connect_loop env fuel k = (none, fuel) := by
  intro fuel
  induction fuel with
  | zero => intro k; rfl
  | succ fuel ih =>
    intro k
    show (match env k with
      | some h => (some h, 1)
      | none =>
        let r := connect_loop env fuel (k + 1)
        (r.1, r.2 + 1)) = (none, fuel + 1)
    rw [hfail k, ih (k + 1)]

/-- C8: when every connection attempt fails, `get_mongodb_client` with
max_retries = R makes exactly R + 1 connection attempts (the initial
attempt plus R retries) and produces no client handle, and the
`get_database` acquire path then fails with the typed ConnectionError
("Failed to connect to MongoDB database") instead of returning a live
handle. -/
theorem c8_connect_retry_exhaustion {H : Type} (env : Nat → Option H) (R : Nat)
    (hfail : ∀ k, env k = none) :
    (get_mongodb_client env false none R).2 = R + 1
  ∧ (get_mongodb_client env false none R).1 = none
  ∧ get_database env false none R
      = .error (.connectionError "Failed to connect to MongoDB database") := by
  have hloop := connect_loop_all_fail env hfail (R + 1) 0
  have hclient : get_mongodb_client env false none R = (none, R + 1) := hloop
  refine ⟨by rw [hclient], by rw [hclient], ?_⟩
  show (match get_mongodb_client env false none R with
    | (some c, _) => Except.ok (c, DATABASE_NAME)
    | (none, _) =>
        Except.error (DBError.connectionError "Failed to connect to MongoDB database"))
    = Except.error (DBError.connectionError "Failed to connect to MongoDB database")
  rw [hclient]

/-- Witness for C8 with R = 2. -/
theorem c8_connect_retry_exhaustion_witness :
    (∀ k : Nat, (fun _ : Nat => (none : Option Nat)) k = none)
  ∧ ((get_mongodb_client (fun _ : Nat => (none : Option Nat)) false none 2).2 = 2 + 1
    ∧ (get_mongodb_client (fun _ : Nat => (none : Option Nat)) false none 2).1 = none
    ∧ get_database (fun _ : Nat => (none : Option Nat)) false none 2
        = .error (.connectionError "Failed to connect to MongoDB database")) :=
  ⟨fun _ => rfl,
   c8_connect_retry_exhaustion (fun _ : Nat => (none : Option Nat)) 2 (fun _ => rfl)⟩

def c9_op : Nat → Except String Unit := fun _ => .error "connection refused"

/-- C9 counterexample: with max_retries = 0 the single caught exception
has a connection-related message ("connection refused"), yet the cached
client handle is NOT invalidated — the exhaustion branch re-raises
before the invalidation code runs — refuting "whenever a caught
exception's message contains ... it sets the cached client handle to
None". -/
theorem c9_counterexample :
    is_connection_error "connection refused" = true
  ∧ (with_mongodb_retry c9_op 0 (1 / 2 : ℚ) (3 / 2 : ℚ) (some (0 : Nat))).client
      = some 0
  ∧ (with_mongodb_retry c9_op 0 (1 / 2 : ℚ) (3 / 2 : ℚ) (some (0 : Nat))).result
      = .error "connection refused" := by
  refine ⟨by decide, rfl, rfl⟩

theorem retry_go_all_fail {A H : Type} (m : Nat → String) (b : ℚ) :
    ∀ (r k : Nat) (cur : ℚ) (cl : Option H) (acc : List ℚ),
      retry_go (A := A) (fun j => .error (m j)) b r k cur cl acc =
        ⟨.error (m (k + r)),
         acc.reverse ++ (List.range r).map (fun i => cur * b ^ i),
         if (List.range r).any (fun i => is_connection_error (m (k + i)))
           then none else cl⟩ := by
  intro r
  induction r with
  | zero =>
    intro k cur cl acc
    simp [retry_go]
  | succ r ih =>
    intro k cur cl acc
    show retry_go (A := A) (fun j => .error (m j)) b r (k + 1) (cur * b)
        (if is_connection_error (m k) then none else cl) (cur :: acc) = _
    rw [ih (k + 1) (cur * b) _ (cur :: acc)]
    have hidx : ∀ i : Nat, k + 1 + i = k + (i + 1) := by omega
    have hpow : ∀ i : Nat, cur * b * b ^ i = cur * b ^ (i + 1) := by
      intro i
      rw [pow_succ]
      ring
    congr 1
    · rw [show k + 1 + r = k + (r + 1) from by omega]
    · rw [List.range_succ_eq_map]
      simp only [List.reverse_cons, List.map_cons, List.map_map, Function.comp,
        List.append_assoc, List.singleton_append, Nat.succ_eq_add_one, pow_zero, mul_one]
      simp only [hpow]
      simp [Function.comp_def, Nat.succ_eq_add_one]
    · rw [List.range_succ_eq_map]
      simp only [List.any_cons, List.any_map, Function.comp, Nat.succ_eq_add_one,
        Nat.add_zero]
      simp only [hidx]
      by_cases hck : is_connection_error (m k) = true
      · simp [hck]
      · simp [hck]

/-- C9 (amended): on an operation that fails every time,
`with_mongodb_retry` with max_retries = R retries R times with the
exponential sleep schedule d, d*b, ..., d*b^(R-1) and re-raises the
final (R+1-th) exception unchanged; the cached client handle is set to
None iff one of the R *retried* (non-final) exceptions has a
connection-related message — the final re-raised exception never
triggers the invalidation. -/
theorem c9_amended_retry_and_invalidation {A H : Type} (m : Nat → String) (R : Nat)
    (d b : ℚ) (cl : Option H) :
    (with_mongodb_retry (A := A) (fun k => .error (m k)) R d b cl).result
      = .error (m R)
  ∧ (with_mongodb_retry (A := A) (fun k => .error (m k)) R d b cl).sleeps
      = (List.range R).map (fun i => d * b ^ i)
  ∧ (with_mongodb_retry (A := A) (fun k => .error (m k)) R d b cl).client
      = (if (List.range R).any (fun k => is_connection_error (m k))
          then none else cl) := by
  have h := retry_go_all_fail (A := A) (H := H) m b R 0 d cl []
  have hw : with_mongodb_retry (A := A) (fun k => .error (m k)) R d b cl
      = retry_go (A := A) (fun k => .error (m k)) b R 0 d cl [] := rfl
  rw [hw, h]
  refine ⟨by simp, by simp, by simp⟩
